import Mathlib

/-!
Shallow embedding of the Sales Analytics and Recommendation Engine of the
canteen-management-system repository (src/analytics.py, class AnalyticsEngine),
together with theorems settling the frozen claims about it.

Modelling conventions:
- A pandas DataFrame of sales records is a `List SalesRecord`; the ledger is
  the list returned by DataManager.load_sales_data.
- Dates are integer day numbers (day 0 is a Monday); `datetime.now()` is an
  explicit `now : Int` parameter threaded into every operation that the
  source lets read the ambient clock.  `timedelta(days = k)` is integer
  subtraction at day granularity.
- float64 arithmetic is modelled exactly over `ℚ`; the IEEE special values
  produced by pandas division with a zero denominator (inf, -inf, nan) are
  the `PdFloat` type, with `x / 0 = inf` for `x > 0`, `-inf` for `x < 0`
  and `nan` for `0 / 0`, and with `nan > c` false and `inf > c` true,
  exactly as numpy evaluates the comparisons in analytics.py.
- `DataFrame.groupby(key)` (default `sort=True`) is: the deduplicated key
  list sorted ascending, each key paired with the sublist of rows carrying
  it.  `sort_values(col, ascending=False)` is a stable ascending sort by
  the column followed by a reversal, which agrees with the pandas
  implementation (an ascending numpy argsort whose indexer is reversed;
  numpy argsort is insertion sort, hence stable, at the sizes considered).
- `Series.round(2)` is exact round-half-to-even at two decimals; Python
  `int(x)` on a float is truncation toward zero, and `int(nan)` raises
  ValueError, so `forecast_demand` returns `Except String _`.
- Columns of the ledger that analytics.py never reads (price, is_weekday)
  are omitted from the record structure.
-/

/-
The Rat arithmetic operations are restored to their default reducibility so
that closed-term evaluations go through `decide`; the kernel itself never
tracks reducibility, so proofs are unaffected.
-/
set_option allowUnsafeReducibility true in
attribute [semireducible] Rat.add Rat.mul Rat.div Rat.sub Rat.neg Rat.inv

/-- Weekday names as produced by `strftime(%A)` and listed in days_order. -/
inductive Weekday where
  | monday
  | tuesday
  | wednesday
  | thursday
  | friday
  | saturday
  | sunday
deriving DecidableEq, Repr

/-- Position of a weekday in the days_order list Monday..Sunday. -/
def Weekday.idx : Weekday → Nat
  | .monday => 0
  | .tuesday => 1
  | .wednesday => 2
  | .thursday => 3
  | .friday => 4
  | .saturday => 5
  | .sunday => 6

/-- Weekday of an integer day number, with day 0 a Monday. -/
def dayOfWeek (d : Int) : Weekday :=
  match (d % 7).toNat with
  | 0 => .monday
  | 1 => .tuesday
  | 2 => .wednesday
  | 3 => .thursday
  | 4 => .friday
  | 5 => .saturday
  | _ => .sunday

/-- Result of a pandas float division: a finite value or an IEEE special
produced by a zero denominator. -/
inductive PdFloat where
  | fin (q : ℚ)
  | posInf
  | negInf
  | nan
deriving DecidableEq, Repr

/-- Division as numpy/pandas perform it on float columns: finite quotient for
a nonzero denominator, otherwise inf, -inf or nan by the sign of the
numerator. -/
def pdDiv (a b : ℚ) : PdFloat :=
  if b ≠ 0 then .fin (a / b)
  else if 0 < a then .posInf
  else if a < 0 then .negInf
  else .nan

/-- Multiplication by the literal 100 appearing in every percentage
computation of analytics.py; 100 is positive so the specials are fixed. -/
def PdFloat.times100 : PdFloat → PdFloat
  | .fin q => .fin (q * 100)
  | .posInf => .posInf
  | .negInf => .negInf
  | .nan => .nan

/-- Comparison `x > c` of a float column value against a finite threshold,
as numpy evaluates it: true for inf, false for nan and -inf. -/
def pdGtRat (x : PdFloat) (c : ℚ) : Bool :=
  match x with
  | .fin q => decide (c < q)
  | .posInf => true
  | .negInf => false
  | .nan => false

/-- Comparison `c < x` of a finite column value against a possibly-special
threshold (the quantile), as numpy evaluates it: false when the threshold is
nan, true when it is inf. -/
def ratLtPd (c : ℚ) (x : PdFloat) : Bool :=
  match x with
  | .fin q => decide (c < q)
  | .posInf => true
  | .negInf => false
  | .nan => false

/-- Round-half-to-even to an integer, the rounding numpy uses. -/
def roundHalfEven (q : ℚ) : Int :=
  let f := q.floor
  let r := q - (f : ℚ)
  if r < 1/2 then f
  else if 1/2 < r then f + 1
  else if f % 2 = 0 then f else f + 1

/-- Rounding to 2 decimal places, as `DataFrame.round(2)`. -/
def round2 (q : ℚ) : ℚ := (roundHalfEven (q * 100) : ℚ) / 100

/-- Python `int()` applied to a finite float: truncation toward zero. -/
def truncInt (q : ℚ) : Int := if 0 ≤ q then q.floor else q.ceil

/-- One row of the sales ledger, as loaded by DataManager.load_sales_data.
Only the columns read by analytics.py are kept. -/
structure SalesRecord where
  date : Int
  day_of_week : Weekday
  menu_item : String
  quantity_sold : ℚ
  revenue : ℚ
  waste_quantity : ℚ
  waste_cost : ℚ
deriving DecidableEq, Repr

/-- Sum of a numeric column over a list of rows. -/
def colSum (l : List SalesRecord) (f : SalesRecord → ℚ) : ℚ := (l.map f).sum

/-- Insert an element into a sorted list, before the first element it
compares less-or-equal to; the stable-insertion step of insertion sort. -/
def orderedInsert {α : Type} (le : α → α → Bool) (a : α) : List α → List α
  | [] => [a]
  | b :: l => if le a b then a :: b :: l else b :: orderedInsert le a l

/-- Stable insertion sort (numpy argsort is insertion sort at the array
sizes considered here, hence stable). -/
def insSort {α : Type} (le : α → α → Bool) : List α → List α
  | [] => []
  | a :: l => orderedInsert le a (insSort le l)

/-- Distinct group keys in ascending order, as `groupby` (sort=True) yields
them. -/
def groupKeys {κ : Type} [DecidableEq κ] (ks : List κ) (le : κ → κ → Bool) :
    List κ :=
  insSort le ks.dedup

/-- Descending `sort_values`: stable ascending sort, indexer reversed. -/
def sortDesc {α : Type} (l : List α) (le : α → α → Bool) : List α :=
  (insSort le l).reverse

/-- Lexicographic comparison of character lists by code point. -/
def charListLe : List Char → List Char → Bool
  | [], _ => true
  | _ :: _, [] => false
  | c :: cs, d :: ds => if c = d then charListLe cs ds else decide (c < d)

/-- Lexicographic string order by Unicode code point, the order in which
pandas sorts string group keys.  (The library comparison on String is
implemented by well-founded recursion over iterators; this structural
equivalent evaluates by reduction.) -/
def strLe (a b : String) : Bool := charListLe a.data b.data

/-- Rows of the ledger belonging to one menu_item group. -/
def menuGroup (ledger : List SalesRecord) (item : String) : List SalesRecord :=
  ledger.filter (fun r => r.menu_item == item)

/-- One row of the get_sales_trends output (daily sums). -/
structure TrendRow where
  date : Int
  quantity_sold : ℚ
  revenue : ℚ
  waste_quantity : ℚ
deriving DecidableEq, Repr

/-- AnalyticsEngine.get_sales_trends: filter to `date >= now - period_days`,
group by date (ascending), sum the three columns. -/
def get_sales_trends (ledger : List SalesRecord) (period_days : Int)
    (now : Int) : List TrendRow :=
  let recent := ledger.filter (fun r => decide (now - period_days ≤ r.date))
  (groupKeys (recent.map (·.date)) (fun a b => decide (a ≤ b))).map (fun d =>
    let g := recent.filter (fun r => decide (r.date = d))
    { date := d
      quantity_sold := colSum g (·.quantity_sold)
      revenue := colSum g (·.revenue)
      waste_quantity := colSum g (·.waste_quantity) })

/-- Raw (unrounded) per-item sum of quantity_sold. -/
def itemQtySum (ledger : List SalesRecord) (item : String) : ℚ :=
  colSum (menuGroup ledger item) (·.quantity_sold)

/-- Raw (unrounded) per-item mean of quantity_sold over the group rows. -/
def itemQtyMean (ledger : List SalesRecord) (item : String) : ℚ :=
  itemQtySum ledger item / ((menuGroup ledger item).length : ℚ)

/-- Raw (unrounded) per-item sum of revenue. -/
def itemRevSum (ledger : List SalesRecord) (item : String) : ℚ :=
  colSum (menuGroup ledger item) (·.revenue)

/-- Raw (unrounded) per-item sum of waste_quantity. -/
def itemWasteSum (ledger : List SalesRecord) (item : String) : ℚ :=
  colSum (menuGroup ledger item) (·.waste_quantity)

/-- Raw (unrounded) per-item sum of waste_cost. -/
def itemWasteCostSum (ledger : List SalesRecord) (item : String) : ℚ :=
  colSum (menuGroup ledger item) (·.waste_cost)

/-- One row of the get_menu_performance output. -/
structure MenuPerfRow where
  menu_item : String
  total_sold : ℚ
  avg_daily_sold : ℚ
  total_revenue : ℚ
  total_waste : ℚ
  total_waste_cost : ℚ
  waste_percentage : PdFloat
  profitability : ℚ
deriving DecidableEq, Repr

/-- The get_menu_performance row of one menu_item group: the five aggregates
are rounded to 2 decimals by `.round(2)` first, and waste_percentage and
profitability are then derived from the rounded values. -/
def mkMenuPerfRow (ledger : List SalesRecord) (item : String) : MenuPerfRow :=
  { menu_item := item
    total_sold := round2 (itemQtySum ledger item)
    avg_daily_sold := round2 (itemQtyMean ledger item)
    total_revenue := round2 (itemRevSum ledger item)
    total_waste := round2 (itemWasteSum ledger item)
    total_waste_cost := round2 (itemWasteCostSum ledger item)
    waste_percentage :=
      (pdDiv (round2 (itemWasteSum ledger item))
        (round2 (itemQtySum ledger item))).times100
    profitability :=
      round2 (itemRevSum ledger item) - round2 (itemWasteCostSum ledger item) }

/-- AnalyticsEngine.get_menu_performance: group by menu_item (ascending),
aggregate with round(2), derive waste_percentage and profitability, sort
descending by profitability. -/
def get_menu_performance (ledger : List SalesRecord) : List MenuPerfRow :=
  sortDesc
    ((groupKeys (ledger.map (·.menu_item)) strLe).map
      (mkMenuPerfRow ledger))
    (fun a b => decide (a.profitability ≤ b.profitability))

/-- One row of the get_daily_patterns output (per-weekday means). -/
structure PatternRow where
  day_of_week : Weekday
  quantity_sold : ℚ
  revenue : ℚ
  waste_quantity : ℚ
deriving DecidableEq, Repr

/-- The get_daily_patterns row of one day_of_week group (column means). -/
def mkPatternRow (ledger : List SalesRecord) (w : Weekday) : PatternRow :=
  let g := ledger.filter (fun r => decide (r.day_of_week = w))
  { day_of_week := w
    quantity_sold := colSum g (·.quantity_sold) / (g.length : ℚ)
    revenue := colSum g (·.revenue) / (g.length : ℚ)
    waste_quantity := colSum g (·.waste_quantity) / (g.length : ℚ) }

/-- AnalyticsEngine.get_daily_patterns: group by the stored day_of_week
column, take the mean of each column, then order the rows Monday..Sunday
via the Categorical conversion and sort_values.  Only weekdays present in
the data produce a group, hence a row. -/
def get_daily_patterns (ledger : List SalesRecord) : List PatternRow :=
  (groupKeys (ledger.map (·.day_of_week))
      (fun a b => decide (a.idx ≤ b.idx))).map (mkPatternRow ledger)

/-- One row of the forecast_demand output. -/
structure ForecastRow where
  date : Int
  forecasted_demand : Int
  day_of_week : Weekday
deriving DecidableEq, Repr

/-- AnalyticsEngine.forecast_demand: restrict to the trailing 30 days from
now, group quantity_sold sums by date (ascending), take the mean of the last
7 daily totals (`tail(7).mean()`), and emit `days` rows dated now+1, now+2,
... with the truncated mean as forecasted_demand.  When no date survives the
filter the mean is nan and `int(nan)` raises ValueError, modelled as
`Except.error`. -/
def forecast_demand (ledger : List SalesRecord) (days : Nat) (now : Int) :
    Except String (List ForecastRow) :=
  let recent := ledger.filter (fun r => decide (now - 30 ≤ r.date))
  let dates := groupKeys (recent.map (·.date)) (fun a b => decide (a ≤ b))
  let daily_totals := dates.map (fun d =>
    colSum (recent.filter (fun r => decide (r.date = d))) (·.quantity_sold))
  let tail7 := daily_totals.drop (daily_totals.length - 7)
  if tail7.isEmpty then
    Except.error "cannot convert float NaN to integer"
  else
    Except.ok ((List.range days).map (fun i =>
      let fd := now + Int.ofNat i + 1
      { date := fd
        forecasted_demand := truncInt (tail7.sum / (tail7.length : ℚ))
        day_of_week := dayOfWeek fd }))

/-- One row of the get_waste_analysis output. -/
structure WasteRow where
  menu_item : String
  waste_quantity : ℚ
  waste_cost : ℚ
  quantity_sold : ℚ
  waste_percentage : PdFloat
deriving DecidableEq, Repr

/-- The get_waste_analysis row of one menu_item group; no rounding here, and
waste_percentage divides the raw sums. -/
def mkWasteRow (ledger : List SalesRecord) (item : String) : WasteRow :=
  { menu_item := item
    waste_quantity := itemWasteSum ledger item
    waste_cost := itemWasteCostSum ledger item
    quantity_sold := itemQtySum ledger item
    waste_percentage :=
      (pdDiv (itemWasteSum ledger item) (itemQtySum ledger item)).times100 }

/-- AnalyticsEngine.get_waste_analysis: group by menu_item (ascending), sum
the three columns, derive waste_percentage, sort descending by waste_cost. -/
def get_waste_analysis (ledger : List SalesRecord) : List WasteRow :=
  sortDesc
    ((groupKeys (ledger.map (·.menu_item)) strLe).map
      (mkWasteRow ledger))
    (fun a b => decide (a.waste_cost ≤ b.waste_cost))

/-- Severity tag of a recommendation (the dict key named type in the
source). -/
inductive RecLevel where
  | warning
  | info
  | critical
deriving DecidableEq, Repr

/-- One recommendation dict produced by generate_recommendations. -/
structure Recommendation where
  rtype : RecLevel
  message : String
  action : String
deriving DecidableEq, Repr

/-- Format of a float under the Python format spec `.1f`, on the exact
rational model: round-half-to-even at one decimal; the specials print as
inf, -inf and nan. -/
def fmt1 : PdFloat → String
  | .fin q =>
    let n := roundHalfEven (q * 10)
    let sign := if n < 0 then "-" else ""
    let m := n.natAbs
    sign ++ toString (m / 10) ++ "." ++ toString (m % 10)
  | .posInf => "inf"
  | .negInf => "-inf"
  | .nan => "nan"

/-- The warning recommendation built for one high-waste row. -/
def mkWarningRec (row : WasteRow) : Recommendation :=
  { rtype := .warning
    message := "High waste detected for " ++ row.menu_item ++ ": "
      ++ fmt1 row.waste_percentage ++ "%"
    action := "Consider reducing portions or improving demand forecasting for "
      ++ row.menu_item }

/-- The info recommendation built for one low-profitability row. -/
def mkInfoRec (row : MenuPerfRow) : Recommendation :=
  { rtype := .info
    message := "Low profitability for " ++ row.menu_item
    action := "Review pricing or consider replacing " ++ row.menu_item
      ++ " on menu" }

/-- Series.quantile(0.25) with the default linear interpolation between
order statistics; nan on an empty series. -/
def quantile25 (l : List ℚ) : PdFloat :=
  if l.isEmpty then .nan
  else
    let s := insSort (fun a b => decide (a ≤ b)) l
    let n := s.length
    let pos : ℚ := ((n : ℚ) - 1) / 4
    let i := pos.floor.toNat
    let frac : ℚ := pos - (pos.floor : ℚ)
    let lo := s.getD i 0
    let hi := s.getD (min (i + 1) (n - 1)) 0
    .fin (lo + frac * (hi - lo))

/-- The high_waste selection of generate_recommendations:
`waste_analysis[waste_percentage > 15]`, in waste-table order. -/
def highWaste (ledger : List SalesRecord) : List WasteRow :=
  (get_waste_analysis ledger).filter (fun r => pdGtRat r.waste_percentage 15)

/-- The low_performers selection of generate_recommendations:
`menu_perf[profitability < profitability.quantile(0.25)]`, in
menu-performance-table order. -/
def lowPerformers (ledger : List SalesRecord) : List MenuPerfRow :=
  (get_menu_performance ledger).filter (fun r =>
    ratLtPd r.profitability
      (quantile25 ((get_menu_performance ledger).map (·.profitability))))

/-- The global ratio `waste_cost.sum() / revenue.sum() * 100` over the whole
ledger. -/
def totalWastePercent (ledger : List SalesRecord) : PdFloat :=
  (pdDiv (colSum ledger (·.waste_cost)) (colSum ledger (·.revenue))).times100

/-- The critical recommendation block of generate_recommendations: one
entry when the global ratio compares above 15, none otherwise. -/
def criticalRecs (ledger : List SalesRecord) : List Recommendation :=
  if pdGtRat (totalWastePercent ledger) 15 then
    [{ rtype := .critical
       message := "High overall waste: " ++ fmt1 (totalWastePercent ledger)
         ++ "% of revenue"
       action := "Implement pre-ordering system and improve inventory management" }]
  else []

/-- AnalyticsEngine.generate_recommendations: the high-waste warnings in
waste-table order, then the first two low performers as infos, then the
global-waste critical entry if triggered.  The ambient clock value at call
time is passed in as `now`; the source method never reads the clock, so the
parameter is unused. -/
def generate_recommendations (ledger : List SalesRecord) (_now : Int) :
    List Recommendation :=
  (highWaste ledger).map mkWarningRec
    ++ ((lowPerformers ledger).take 2).map mkInfoRec
    ++ criticalRecs ledger

/-! Concrete ledgers and rows used by the counterexamples and witnesses. -/

/-- A ledger whose records all fall on a single weekday (a Monday). -/
def c1Ledger : List SalesRecord :=
  [{ date := 0, day_of_week := .monday, menu_item := "Rice", quantity_sold := 10,
     revenue := 1200, waste_quantity := 1, waste_cost := 36 }]

/-- A ledger with one item whose quantity_sold sum is 0 while its
waste_quantity sum is positive. -/
def c2Ledger : List SalesRecord :=
  [{ date := 0, day_of_week := .monday, menu_item := "Samosa", quantity_sold := 0,
     revenue := 0, waste_quantity := 5, waste_cost := 60 }]

/-- The waste-analysis row that c2Ledger produces. -/
def c2Row : WasteRow :=
  { menu_item := "Samosa", waste_quantity := 5, waste_cost := 60,
    quantity_sold := 0, waste_percentage := .posInf }

/-- Ten items of distinct profitability 0..9 and no waste: the 25th
percentile of profitability is 2.25, so the items with profitability 0, 1
and 2 qualify as low performers. -/
def c3Ledger : List SalesRecord :=
  (List.range 10).map (fun i =>
    { date := 0, day_of_week := .monday, menu_item := "i" ++ toString i,
      quantity_sold := 1, revenue := (i : ℚ), waste_quantity := 0,
      waste_cost := 0 })

/-- Two items with equal profitability, menu_item names a and b. -/
def c5Ledger : List SalesRecord :=
  [{ date := 0, day_of_week := .monday, menu_item := "a", quantity_sold := 1,
     revenue := 10, waste_quantity := 0, waste_cost := 0 },
   { date := 0, day_of_week := .monday, menu_item := "b", quantity_sold := 1,
     revenue := 10, waste_quantity := 0, waste_cost := 0 }]

/-- A one-record ledger dated day 0, used to separate two clock readings. -/
def c6Ledger : List SalesRecord :=
  [{ date := 0, day_of_week := .monday, menu_item := "Rice", quantity_sold := 10,
     revenue := 1200, waste_quantity := 1, waste_cost := 36 }]

/-- A ledger with zero total revenue and positive total waste cost. -/
def c7Ledger : List SalesRecord :=
  [{ date := 0, day_of_week := .monday, menu_item := "Tea", quantity_sold := 0,
     revenue := 0, waste_quantity := 5, waste_cost := 60 }]

/-- A two-item ledger for the recommendation-order witness: both items have
a defined waste percentage above 15 and the global ratio is above 15. -/
def c8Ledger : List SalesRecord :=
  [{ date := 0, day_of_week := .monday, menu_item := "A", quantity_sold := 10,
     revenue := 100, waste_quantity := 2, waste_cost := 30 },
   { date := 0, day_of_week := .monday, menu_item := "B", quantity_sold := 10,
     revenue := 100, waste_quantity := 3, waste_cost := 50 }]

/-- Seven consecutive days of trailing history ending at day d, with daily
total quantities 10, 20, 30, 40, 50, 60, 70. -/
def c9Ledger (d : Int) : List SalesRecord :=
  (List.range 7).map (fun i =>
    { date := d - 6 + (i : Int), day_of_week := dayOfWeek (d - 6 + (i : Int)),
      menu_item := "Rice", quantity_sold := 10 * ((i : ℚ) + 1),
      revenue := 100 * ((i : ℚ) + 1), waste_quantity := 0, waste_cost := 0 })

/-- The forecast that c9Ledger must produce for a horizon of 7 days from
day d: the 7 consecutive days after d, each with the mean demand 40 and the
weekday of its date. -/
def c9Expected (d : Int) : List ForecastRow :=
  (List.range 7).map (fun i =>
    { date := d + (i : Int) + 1, forecasted_demand := 40,
      day_of_week := dayOfWeek (d + (i : Int) + 1) })

/-- A one-record ledger with fractional aggregates, so that rounding to two
decimals is visible in the menu-performance output. -/
def c10Ledger : List SalesRecord :=
  [{ date := 0, day_of_week := .monday, menu_item := "Rice", quantity_sold := 3,
     revenue := 10567/1000, waste_quantity := 1, waste_cost := 1234/1000 }]

/-- The menu-performance row that c10Ledger produces. -/
def c10Row : MenuPerfRow := mkMenuPerfRow c10Ledger "Rice"

/-! Shared helper lemmas about the embedding. -/

/-- Projection of the pattern-row builder. -/
@[simp]
theorem mkPatternRow_day_of_week (L : List SalesRecord) (w : Weekday) :
    (mkPatternRow L w).day_of_week = w := rfl

/-- Projection of the warning builder. -/
@[simp]
theorem mkWarningRec_rtype (r : WasteRow) :
    (mkWarningRec r).rtype = RecLevel.warning := rfl

/-- Projection of the info builder. -/
@[simp]
theorem mkInfoRec_rtype (r : MenuPerfRow) :
    (mkInfoRec r).rtype = RecLevel.info := rfl

/-- Inserting an element permutes consing it. -/
theorem orderedInsert_perm {α : Type} (le : α → α → Bool) (a : α)
    (l : List α) : List.Perm (orderedInsert le a l) (a :: l) := by
  induction l with
  | nil => exact List.Perm.refl _
  | cons b t ih =>
    unfold orderedInsert
    by_cases hab : le a b = true
    · rw [if_pos hab]
    · rw [if_neg hab]
      exact (ih.cons b).trans (List.Perm.swap a b t)

/-- Insertion sort permutes its input. -/
theorem insSort_perm {α : Type} (le : α → α → Bool) (l : List α) :
    List.Perm (insSort le l) l := by
  induction l with
  | nil => exact List.Perm.refl _
  | cons a t ih =>
    exact (orderedInsert_perm le a (insSort le t)).trans (ih.cons a)

/-- Membership is preserved by insertion sort. -/
theorem mem_insSort {α : Type} (le : α → α → Bool) (l : List α) (a : α) :
    a ∈ insSort le l ↔ a ∈ l :=
  (insSort_perm le l).mem_iff

/-- Inserting into a sorted list keeps it sorted, for a transitive and
total comparison. -/
theorem orderedInsert_pairwise {α : Type} (le : α → α → Bool)
    (trans : ∀ a b c, le a b = true → le b c = true → le a c = true)
    (total : ∀ a b, le a b = true ∨ le b a = true)
    (a : α) (l : List α) (h : l.Pairwise (fun x y => le x y = true)) :
    (orderedInsert le a l).Pairwise (fun x y => le x y = true) := by
  induction l with
  | nil => simp [orderedInsert]
  | cons b t ih =>
    rw [List.pairwise_cons] at h
    unfold orderedInsert
    by_cases hab : le a b = true
    · rw [if_pos hab]
      refine List.pairwise_cons.mpr ⟨?_, List.pairwise_cons.mpr ⟨h.1, h.2⟩⟩
      intro x hx
      rcases List.mem_cons.mp hx with hx | hx
      · rw [hx]
        exact hab
      · exact trans a b x hab (h.1 x hx)
    · rw [if_neg hab]
      have hba : le b a = true := (total a b).resolve_left hab
      refine List.pairwise_cons.mpr ⟨?_, ih h.2⟩
      intro x hx
      rcases List.mem_cons.mp
          ((orderedInsert_perm le a t).mem_iff.mp hx) with hx | hx
      · rw [hx]
        exact hba
      · exact h.1 x hx

/-- Insertion sort sorts, for a transitive and total comparison. -/
theorem insSort_pairwise {α : Type} (le : α → α → Bool)
    (trans : ∀ a b c, le a b = true → le b c = true → le a c = true)
    (total : ∀ a b, le a b = true ∨ le b a = true)
    (l : List α) : (insSort le l).Pairwise (fun x y => le x y = true) := by
  induction l with
  | nil => exact List.Pairwise.nil
  | cons a t ih => exact orderedInsert_pairwise le trans total a _ ih

/-- Membership is preserved by the descending sort. -/
theorem mem_sortDesc {α : Type} (le : α → α → Bool) (l : List α) (a : α) :
    a ∈ sortDesc l le ↔ a ∈ l := by
  unfold sortDesc
  rw [List.mem_reverse]
  exact mem_insSort le l a

/-- The descending sort by a key into a linear order is pairwise
descending in that key. -/
theorem sortDesc_pairwise {α β : Type} [LinearOrder β] (key : α → β)
    (l : List α) :
    (sortDesc l (fun a b => decide (key a ≤ key b))).Pairwise
      (fun a b => key b ≤ key a) := by
  unfold sortDesc
  rw [List.pairwise_reverse]
  have h := insSort_pairwise (fun a b => decide (key a ≤ key b))
    (fun a b c hab hbc => by
      simp only [decide_eq_true_eq] at *
      exact le_trans hab hbc)
    (fun a b => by
      simp only [decide_eq_true_eq]
      exact le_total _ _) l
  exact h.imp (fun hab => by simpa using hab)

/-- Membership in the sorted deduplicated key list. -/
theorem mem_groupKeys {κ : Type} [DecidableEq κ] (ks : List κ)
    (le : κ → κ → Bool) (k : κ) : k ∈ groupKeys ks le ↔ k ∈ ks := by
  unfold groupKeys
  rw [mem_insSort]
  exact List.mem_dedup

/-- The sorted deduplicated key list has no duplicates. -/
theorem nodup_groupKeys {κ : Type} [DecidableEq κ] (ks : List κ)
    (le : κ → κ → Bool) : (groupKeys ks le).Nodup :=
  (insSort_perm le ks.dedup).symm.nodup (List.nodup_dedup ks)

/-- The sorted deduplicated key list is pairwise ascending in the sort
key. -/
theorem groupKeys_pairwise {κ β : Type} [DecidableEq κ] [LinearOrder β]
    (key : κ → β) (ks : List κ) :
    (groupKeys ks (fun a b => decide (key a ≤ key b))).Pairwise
      (fun a b => key a ≤ key b) := by
  have h := insSort_pairwise (fun a b => decide (key a ≤ key b))
    (fun a b c hab hbc => by
      simp only [decide_eq_true_eq] at *
      exact le_trans hab hbc)
    (fun a b => by
      simp only [decide_eq_true_eq]
      exact le_total _ _) ks.dedup
  exact h.imp (fun hab => by simpa using hab)

/-- The weekday index determines the weekday. -/
theorem weekday_idx_injective :
    ∀ a b : Weekday, a.idx = b.idx → a = b := by
  intro a b
  cases a <;> cases b <;> simp [Weekday.idx]

/-! Claim C1. -/

/-- Claim C1: the claim asserts that dailyPatterns returns exactly 7 rows
for every ledger, with absent weekdays carrying a no-data marker.  On a
ledger whose records all fall on a Monday the code returns a single row:
absent weekdays are omitted, so the claim is false. -/
theorem c1_daily_patterns_counterexample :
    (get_daily_patterns c1Ledger).length = 1 := by decide

/-- Claim C1 (amended): get_daily_patterns returns one row for each weekday
actually present in the ledger, in Monday-to-Sunday order; a weekday absent
from the ledger is omitted entirely rather than reported with a no-data
marker or zero. -/
theorem c1_daily_patterns_amended (L : List SalesRecord) :
    ((get_daily_patterns L).map PatternRow.day_of_week).Pairwise
        (fun a b => a.idx < b.idx) ∧
    ∀ w : Weekday,
      (∃ row ∈ get_daily_patterns L, row.day_of_week = w) ↔
        w ∈ L.map SalesRecord.day_of_week := by
  have hmap : (get_daily_patterns L).map PatternRow.day_of_week
      = groupKeys (L.map SalesRecord.day_of_week)
          (fun a b => decide (a.idx ≤ b.idx)) := by
    unfold get_daily_patterns
    rw [List.map_map]
    exact List.map_id' _
  constructor
  · rw [hmap]
    have hle := groupKeys_pairwise Weekday.idx (L.map SalesRecord.day_of_week)
    have hnd : (groupKeys (L.map SalesRecord.day_of_week)
        (fun a b => decide (a.idx ≤ b.idx))).Pairwise (· ≠ ·) :=
      nodup_groupKeys _ _
    exact (hle.and hnd).imp (fun hab => lt_of_le_of_ne hab.1
      (fun he => hab.2 (weekday_idx_injective _ _ he)))
  · intro w
    rw [← mem_groupKeys (L.map SalesRecord.day_of_week)
        (fun a b => decide (a.idx ≤ b.idx)) w, ← hmap]
    simp [List.mem_map]

/-- Claim C1 (amended) at the concrete single-Monday ledger. -/
theorem c1_daily_patterns_amended_witness :
    ((get_daily_patterns c1Ledger).map PatternRow.day_of_week).Pairwise
        (fun a b => a.idx < b.idx) ∧
    ∀ w : Weekday,
      (∃ row ∈ get_daily_patterns c1Ledger, row.day_of_week = w) ↔
        w ∈ c1Ledger.map SalesRecord.day_of_week :=
  c1_daily_patterns_amended c1Ledger

/-! Claim C2. -/

/-- Claim C2: the claim asserts that an item with quantity_sold sum 0 gets
an explicit undefined waste-percentage marker (not infinity) and never a
rule-1 warning.  On c2Ledger the code computes waste_percentage inf for the
item (5 wasted, 0 sold) and does emit a rule-1 high-waste warning for it
(inf > 15 holds), so the claim is false. -/
theorem c2_waste_undefined_counterexample :
    (get_waste_analysis c2Ledger).map WasteRow.waste_percentage
        = [PdFloat.posInf] ∧
    (generate_recommendations c2Ledger 0).map Recommendation.rtype
        = [RecLevel.warning, RecLevel.critical] := by
  exact ⟨by decide, by decide⟩

/-- Claim C2 (amended): a waste-analysis row with quantity_sold sum 0 gets
waste_percentage +inf when its waste_quantity sum is positive — and then a
rule-1 high-waste warning IS emitted for it, because inf > 15 — and nan when
its waste_quantity sum is 0, in which case the comparison against the
threshold is false and no warning arises from it. -/
theorem c2_waste_undefined_amended (L : List SalesRecord) (now : Int)
    (row : WasteRow) (h : row ∈ get_waste_analysis L)
    (h0 : row.quantity_sold = 0) :
    (0 < row.waste_quantity →
      row.waste_percentage = PdFloat.posInf ∧
      mkWarningRec row ∈ generate_recommendations L now) ∧
    (row.waste_quantity = 0 →
      row.waste_percentage = PdFloat.nan ∧
      pdGtRat row.waste_percentage 15 = false) := by
  have hmem : row ∈ (groupKeys (L.map (·.menu_item)) strLe).map
      (mkWasteRow L) :=
    (mem_sortDesc _ _ row).mp h
  obtain ⟨item, hitem, heq⟩ := List.mem_map.mp hmem
  subst heq
  have hq : itemQtySum L item = 0 := h0
  constructor
  · intro hw
    have hwq : 0 < itemWasteSum L item := hw
    have hpct : (mkWasteRow L item).waste_percentage = PdFloat.posInf := by
      show (pdDiv (itemWasteSum L item) (itemQtySum L item)).times100 = _
      rw [hq]
      unfold pdDiv
      simp [hwq, PdFloat.times100]
    refine ⟨hpct, ?_⟩
    have hfilt : mkWasteRow L item ∈ highWaste L := by
      unfold highWaste
      refine List.mem_filter.mpr ⟨h, ?_⟩
      have hgt : pdGtRat (mkWasteRow L item).waste_percentage 15 = true := by
        rw [hpct]
        decide
      simpa using hgt
    unfold generate_recommendations
    exact List.mem_append_left _
      (List.mem_append_left _ (List.mem_map_of_mem mkWarningRec hfilt))
  · intro hw0
    have hwq : itemWasteSum L item = 0 := hw0
    have hpct : (mkWasteRow L item).waste_percentage = PdFloat.nan := by
      show (pdDiv (itemWasteSum L item) (itemQtySum L item)).times100 = _
      rw [hq, hwq]
      rfl
    exact ⟨hpct, by rw [hpct]; decide⟩

/-- Claim C2 (amended) at the concrete zero-sold ledger and its row. -/
theorem c2_waste_undefined_witness :
    (0 < c2Row.waste_quantity →
      c2Row.waste_percentage = PdFloat.posInf ∧
      mkWarningRec c2Row ∈ generate_recommendations c2Ledger 0) ∧
    (c2Row.waste_quantity = 0 →
      c2Row.waste_percentage = PdFloat.nan ∧
      pdGtRat c2Row.waste_percentage 15 = false) :=
  c2_waste_undefined_amended c2Ledger 0 c2Row (by decide) (by decide)

/-! Claim C3. -/

/-- Claim C3: the claim asserts that the rule-2 info recommendations are
the at-most-2 LOWEST-profitability items among those strictly below the
25th percentile.  On c3Ledger (profitabilities 0..9 for items i0..i9, and
25th percentile 2.25, so i0, i1 and i2 qualify) the code emits infos for
i2 and i1 — the two highest qualifying ones, because head(2) is taken from
the profitability-descending table — and omits the lowest item i0, so the
claim is false. -/
theorem c3_low_profit_counterexample :
    (generate_recommendations c3Ledger 0).map Recommendation.message =
      ["Low profitability for i2", "Low profitability for i1"] := by decide

/-- Claim C3 (amended): the rule-2 info recommendations are exactly the
first at-most-2 qualifying rows of the profitability-descending
menu-performance table — the 2 HIGHEST-profitability items among those
strictly below the 25th percentile (linear interpolation) — and every
unselected qualifying item has profitability at most that of each selected
one. -/
theorem c3_low_profit_amended (L : List SalesRecord) (now : Int) :
    (generate_recommendations L now).filter
        (fun r => r.rtype == RecLevel.info) =
      ((lowPerformers L).take 2).map mkInfoRec ∧
    ∀ r ∈ (lowPerformers L).drop 2, ∀ s ∈ (lowPerformers L).take 2,
      r.profitability ≤ s.profitability := by
  constructor
  · show ((((highWaste L).map mkWarningRec
        ++ ((lowPerformers L).take 2).map mkInfoRec) ++ criticalRecs L).filter
          (fun r => r.rtype == RecLevel.info)) = _
    rw [List.filter_append, List.filter_append]
    have hw : ((highWaste L).map mkWarningRec).filter
        (fun r => r.rtype == RecLevel.info) = [] := by
      rw [List.filter_eq_nil_iff]
      intro r hr
      obtain ⟨x, hx, heq⟩ := List.mem_map.mp hr
      rw [← heq]
      simp
    have hi : (((lowPerformers L).take 2).map mkInfoRec).filter
        (fun r => r.rtype == RecLevel.info) =
        ((lowPerformers L).take 2).map mkInfoRec := by
      rw [List.filter_eq_self]
      intro r hr
      obtain ⟨x, hx, heq⟩ := List.mem_map.mp hr
      rw [← heq]
      rfl
    have hc : (criticalRecs L).filter
        (fun r => r.rtype == RecLevel.info) = [] := by
      unfold criticalRecs
      split
      · rfl
      · rfl
    rw [hw, hi, hc, List.nil_append, List.append_nil]
  · have hp : (lowPerformers L).Pairwise
        (fun a b => b.profitability ≤ a.profitability) := by
      have h0 := sortDesc_pairwise MenuPerfRow.profitability
        ((groupKeys (L.map (·.menu_item)) strLe).map
          (mkMenuPerfRow L))
      exact h0.filter _
    intro r hr s hs
    have hsplit := List.take_append_drop 2 (lowPerformers L)
    rw [← hsplit] at hp
    rw [List.pairwise_append] at hp
    exact hp.2.2 s hs r hr

/-- Claim C3 (amended) at the concrete ten-item ledger. -/
theorem c3_low_profit_amended_witness :
    (generate_recommendations c3Ledger 0).filter
        (fun r => r.rtype == RecLevel.info) =
      ((lowPerformers c3Ledger).take 2).map mkInfoRec ∧
    ∀ r ∈ (lowPerformers c3Ledger).drop 2,
      ∀ s ∈ (lowPerformers c3Ledger).take 2,
        r.profitability ≤ s.profitability :=
  c3_low_profit_amended c3Ledger 0

/-! Claim C4. -/

/-- Claim C4: on the empty ledger the five aggregation and recommendation
pipelines do return empty results, but forecast_demand does NOT return
horizonDays zero entries: with no trailing history the moving-average mean
is nan and `int(nan)` raises ValueError, so the operation fails.  The crash
contradicts the stated (and clearly intended) zero-history behavior, which
makes it a bug in the code rather than a misreading by the spec. -/
theorem c4_empty_ledger_eval :
    get_sales_trends [] 30 0 = [] ∧
    get_menu_performance [] = [] ∧
    get_daily_patterns [] = [] ∧
    get_waste_analysis [] = [] ∧
    generate_recommendations [] 0 = [] ∧
    forecast_demand [] 7 0
      = Except.error "cannot convert float NaN to integer" := by
  exact ⟨rfl, rfl, rfl, rfl, rfl, rfl⟩

/-! Claim C5. -/

/-- Claim C5: the claim asserts descending profitability with ties broken
by ASCENDING menu_item.  On c5Ledger the items a and b have equal
profitability and come out in the order b, a — the stable ascending sort is
reversed by the descending sort_values, which reverses tied runs as well —
so the claim is false. -/
theorem c5_menu_perf_counterexample :
    (get_menu_performance c5Ledger).map MenuPerfRow.menu_item
      = ["b", "a"] := by decide

/-- Claim C5 (amended): get_menu_performance is sorted non-strictly
descending by profitability, and the output is a deterministic function of
the ledger; rows of equal profitability are NOT ordered by ascending
menu_item (a fully tied table comes out with menu_item descending). -/
theorem c5_menu_perf_amended (L : List SalesRecord) :
    (get_menu_performance L).Pairwise
      (fun a b => b.profitability ≤ a.profitability) :=
  sortDesc_pairwise MenuPerfRow.profitability _

/-- Claim C5 (amended) at the concrete tied ledger. -/
theorem c5_menu_perf_amended_witness :
    (get_menu_performance c5Ledger).Pairwise
      (fun a b => b.profitability ≤ a.profitability) :=
  c5_menu_perf_amended c5Ledger

/-! Claim C6. -/

/-- Claim C6: the claim asserts that salesTrend, forecastDemand and
generateRecommendations are unchanged under a different global clock
reading.  The source reads datetime.now() inside get_sales_trends and
forecast_demand: on c6Ledger (one record at day 0) the clock readings 0 and
100 give different trend output (one row versus none) and different
forecast output (a forecast versus a ValueError), so the claim is false. -/
theorem c6_clock_counterexample :
    get_sales_trends c6Ledger 30 0 ≠ get_sales_trends c6Ledger 30 100 ∧
    forecast_demand c6Ledger 7 0 ≠ forecast_demand c6Ledger 7 100 := by
  constructor
  · decide
  · intro h
    exact absurd (congrArg Except.isOk h) (by decide)

/-- Claim C6 (amended): generate_recommendations reads no clock, so its
output is identical under any two ambient clock readings; get_sales_trends
and forecast_demand, however, do read the hidden global clock, and their
outputs can differ across clock readings. -/
theorem c6_clock_amended (L : List SalesRecord) (d1 d2 : Int) :
    generate_recommendations L d1 = generate_recommendations L d2 := rfl

/-- Claim C6 (amended) at the concrete ledger and two clock instants. -/
theorem c6_clock_amended_witness :
    generate_recommendations c6Ledger 0 = generate_recommendations c6Ledger 100 :=
  c6_clock_amended c6Ledger 0 100

/-! Claim C7. -/

/-- Claim C7: the claim asserts that no critical recommendation is emitted
when total revenue is 0, even with positive waste cost.  On c7Ledger
(revenue sum 0, waste cost sum 60) the ratio is +inf, inf > 15 holds, and
the code does emit the critical recommendation, so the claim is false. -/
theorem c7_global_waste_counterexample :
    colSum c7Ledger (·.revenue) = 0 ∧
    0 < colSum c7Ledger (·.waste_cost) ∧
    ((generate_recommendations c7Ledger 0).filter
        (fun r => r.rtype == RecLevel.critical)).length = 1 := by decide

/-- Claim C7 (amended): exactly one critical recommendation is emitted when
either total revenue is nonzero and waste_cost_sum / revenue_sum * 100
exceeds 15, or total revenue is zero and total waste cost is positive (the
ratio is then +inf, which compares above 15); otherwise none is emitted —
in particular a nan ratio (both sums zero) or a -inf ratio suppresses it. -/
theorem c7_global_waste_amended (L : List SalesRecord) (now : Int) :
    ((generate_recommendations L now).filter
        (fun r => r.rtype == RecLevel.critical)).length =
      if (colSum L (·.revenue) ≠ 0 ∧
            15 < colSum L (·.waste_cost) / colSum L (·.revenue) * 100) ∨
          (colSum L (·.revenue) = 0 ∧ 0 < colSum L (·.waste_cost)) then 1
      else 0 := by
  have hfw : ((highWaste L).map mkWarningRec).filter
      (fun r => r.rtype == RecLevel.critical) = [] := by
    rw [List.filter_eq_nil_iff]
    intro r hr
    obtain ⟨x, hx, heq⟩ := List.mem_map.mp hr
    rw [← heq]
    simp
  have hfi : (((lowPerformers L).take 2).map mkInfoRec).filter
      (fun r => r.rtype == RecLevel.critical) = [] := by
    rw [List.filter_eq_nil_iff]
    intro r hr
    obtain ⟨x, hx, heq⟩ := List.mem_map.mp hr
    rw [← heq]
    simp
  have hfc : (criticalRecs L).filter
      (fun r => r.rtype == RecLevel.critical) = criticalRecs L := by
    unfold criticalRecs
    split
    · rfl
    · rfl
  have key : (pdGtRat (totalWastePercent L) 15 = true) ↔
      ((colSum L (·.revenue) ≠ 0 ∧
          15 < colSum L (·.waste_cost) / colSum L (·.revenue) * 100) ∨
        (colSum L (·.revenue) = 0 ∧ 0 < colSum L (·.waste_cost))) := by
    unfold totalWastePercent pdDiv
    by_cases hv : colSum L (·.revenue) = 0
    · rw [if_neg (by simpa using hv)]
      by_cases hw : 0 < colSum L (·.waste_cost)
      · rw [if_pos hw]
        simp [PdFloat.times100, pdGtRat, hv, hw]
      · rw [if_neg hw]
        by_cases hneg : colSum L (·.waste_cost) < 0
        · rw [if_pos hneg]
          simp [PdFloat.times100, pdGtRat, hv, hw]
        · rw [if_neg hneg]
          simp [PdFloat.times100, pdGtRat, hv, hw]
    · rw [if_pos hv]
      simp [PdFloat.times100, pdGtRat, hv]
  show ((((highWaste L).map mkWarningRec
      ++ ((lowPerformers L).take 2).map mkInfoRec)
      ++ criticalRecs L).filter
        (fun r => r.rtype == RecLevel.critical)).length = _
  rw [List.filter_append, List.filter_append, hfw, hfi, hfc,
    List.nil_append, List.nil_append]
  by_cases hgt : pdGtRat (totalWastePercent L) 15 = true
  · rw [if_pos (key.mp hgt)]
    unfold criticalRecs
    rw [if_pos hgt]
    rfl
  · rw [if_neg (fun hc => hgt (key.mpr hc))]
    unfold criticalRecs
    rw [if_neg hgt]
    rfl

/-- Claim C7 (amended) at the concrete zero-revenue ledger. -/
theorem c7_global_waste_amended_witness :
    ((generate_recommendations c7Ledger 0).filter
        (fun r => r.rtype == RecLevel.critical)).length =
      if (colSum c7Ledger (·.revenue) ≠ 0 ∧
            15 < colSum c7Ledger (·.waste_cost)
              / colSum c7Ledger (·.revenue) * 100) ∨
          (colSum c7Ledger (·.revenue) = 0 ∧
            0 < colSum c7Ledger (·.waste_cost)) then 1
      else 0 :=
  c7_global_waste_amended c7Ledger 0

/-! Claim C8. -/

/-- Claim C8: generate_recommendations is exactly the concatenation of the
rule-1 warnings (the qualifying rows of the waste table, which is sorted
descending by waste_cost), then the at-most-2 rule-2 infos, then the
at-most-1 rule-3 critical entry; each block carries only its own severity,
so the three independently evaluated rules never interleave. -/
theorem c8_rec_order (L : List SalesRecord) (now : Int) :
    generate_recommendations L now =
        ((highWaste L).map mkWarningRec
          ++ ((lowPerformers L).take 2).map mkInfoRec)
          ++ criticalRecs L ∧
    (highWaste L).Pairwise (fun a b => b.waste_cost ≤ a.waste_cost) ∧
    (∀ r ∈ (highWaste L).map mkWarningRec, r.rtype = RecLevel.warning) ∧
    (∀ r ∈ ((lowPerformers L).take 2).map mkInfoRec,
      r.rtype = RecLevel.info) ∧
    ((lowPerformers L).take 2).length ≤ 2 ∧
    (∀ r ∈ criticalRecs L, r.rtype = RecLevel.critical) ∧
    (criticalRecs L).length ≤ 1 := by
  refine ⟨rfl, ?_, ?_, ?_, ?_, ?_, ?_⟩
  · have h0 := sortDesc_pairwise WasteRow.waste_cost
      ((groupKeys (L.map (·.menu_item)) strLe).map (mkWasteRow L))
    exact h0.filter _
  · intro r hr
    obtain ⟨x, hx, heq⟩ := List.mem_map.mp hr
    rw [← heq]
    rfl
  · intro r hr
    obtain ⟨x, hx, heq⟩ := List.mem_map.mp hr
    rw [← heq]
    rfl
  · rw [List.length_take]
    exact min_le_left _ _
  · intro r hr
    unfold criticalRecs at hr
    split at hr
    · rw [List.mem_singleton] at hr
      rw [hr]
    · exact absurd hr (List.not_mem_nil r)
  · unfold criticalRecs
    split
    · simp
    · simp

/-- Claim C8 at a concrete two-item ledger with two qualifying warnings,
one info and the critical entry. -/
theorem c8_rec_order_witness :
    generate_recommendations c8Ledger 0 =
        ((highWaste c8Ledger).map mkWarningRec
          ++ ((lowPerformers c8Ledger).take 2).map mkInfoRec)
          ++ criticalRecs c8Ledger ∧
    (highWaste c8Ledger).Pairwise (fun a b => b.waste_cost ≤ a.waste_cost) ∧
    (∀ r ∈ (highWaste c8Ledger).map mkWarningRec,
      r.rtype = RecLevel.warning) ∧
    (∀ r ∈ ((lowPerformers c8Ledger).take 2).map mkInfoRec,
      r.rtype = RecLevel.info) ∧
    ((lowPerformers c8Ledger).take 2).length ≤ 2 ∧
    (∀ r ∈ criticalRecs c8Ledger, r.rtype = RecLevel.critical) ∧
    (criticalRecs c8Ledger).length ≤ 1 :=
  c8_rec_order c8Ledger 0

/-! Claim C9. -/

/-- Claim C9: on a ledger whose trailing history is exactly the 7 days
before a fixed now (day 0) with daily totals 10..70, forecast_demand 7
returns exactly 7 entries dated the 7 consecutive days after now, each
carrying the mean 40 as forecasted_demand and the weekday of its date; and
in general every successful forecast has length equal to the horizon and a
constant forecasted_demand across it. -/
theorem c9_forecast (L : List SalesRecord) (days : Nat) (now : Int)
    (out : List ForecastRow)
    (h : forecast_demand L days now = Except.ok out) :
    forecast_demand (c9Ledger 0) 7 0 = Except.ok (c9Expected 0) ∧
    out.length = days ∧
    ∀ r1 ∈ out, ∀ r2 ∈ out,
      r1.forecasted_demand = r2.forecasted_demand := by
  refine ⟨by rfl, ?_⟩
  simp only [forecast_demand] at h
  split at h
  · exact absurd h (by simp)
  · injection h with h
    subst h
    constructor
    · rw [List.length_map, List.length_range]
    · intro r1 h1 r2 h2
      obtain ⟨i, hi, heq1⟩ := List.mem_map.mp h1
      obtain ⟨j, hj, heq2⟩ := List.mem_map.mp h2
      rw [← heq1, ← heq2]

/-- Claim C9 at the concrete 7-day ledger. -/
theorem c9_forecast_witness :
    forecast_demand (c9Ledger 0) 7 0 = Except.ok (c9Expected 0) ∧
    (c9Expected 0).length = 7 ∧
    ∀ r1 ∈ c9Expected 0, ∀ r2 ∈ c9Expected 0,
      r1.forecasted_demand = r2.forecasted_demand :=
  c9_forecast (c9Ledger 0) 7 0 (c9Expected 0) (by rfl)

/-! Claim C10. -/

/-- Claim C10: every row of get_menu_performance carries the grouped
aggregates rounded to 2 decimals, and its waste_percentage and
profitability are derived from the ROUNDED sums: profitability equals the
rounded revenue sum minus the rounded waste-cost sum, and waste_percentage
divides the rounded waste sum by the rounded quantity sum. -/
theorem c10_rounding (L : List SalesRecord) (row : MenuPerfRow)
    (h : row ∈ get_menu_performance L) :
    row.total_sold = round2 (itemQtySum L row.menu_item) ∧
    row.avg_daily_sold = round2 (itemQtyMean L row.menu_item) ∧
    row.total_revenue = round2 (itemRevSum L row.menu_item) ∧
    row.total_waste = round2 (itemWasteSum L row.menu_item) ∧
    row.total_waste_cost = round2 (itemWasteCostSum L row.menu_item) ∧
    row.profitability
      = round2 (itemRevSum L row.menu_item)
        - round2 (itemWasteCostSum L row.menu_item) ∧
    row.waste_percentage
      = (pdDiv (round2 (itemWasteSum L row.menu_item))
          (round2 (itemQtySum L row.menu_item))).times100 := by
  have hmem : row ∈ (groupKeys (L.map (·.menu_item)) strLe).map
      (mkMenuPerfRow L) := (mem_sortDesc _ _ row).mp h
  obtain ⟨item, hitem, heq⟩ := List.mem_map.mp hmem
  subst heq
  exact ⟨rfl, rfl, rfl, rfl, rfl, rfl, rfl⟩

/-- Claim C10 at a concrete one-item ledger with fractional sums. -/
theorem c10_rounding_witness :
    c10Row.total_sold = round2 (itemQtySum c10Ledger c10Row.menu_item) ∧
    c10Row.avg_daily_sold
      = round2 (itemQtyMean c10Ledger c10Row.menu_item) ∧
    c10Row.total_revenue = round2 (itemRevSum c10Ledger c10Row.menu_item) ∧
    c10Row.total_waste = round2 (itemWasteSum c10Ledger c10Row.menu_item) ∧
    c10Row.total_waste_cost
      = round2 (itemWasteCostSum c10Ledger c10Row.menu_item) ∧
    c10Row.profitability
      = round2 (itemRevSum c10Ledger c10Row.menu_item)
        - round2 (itemWasteCostSum c10Ledger c10Row.menu_item) ∧
    c10Row.waste_percentage
      = (pdDiv (round2 (itemWasteSum c10Ledger c10Row.menu_item))
          (round2 (itemQtySum c10Ledger c10Row.menu_item))).times100 :=
  c10_rounding c10Ledger c10Row (by decide)
